import Mathlib

/-
  Verification development for the Tidal-Drop repository: three browser canvas
  games sharing a terrain/slope-coupled physics core.

  Shallow embedding conventions:
  * JS numbers are modelled as rationals (ℚ); all definitions are executable.
  * Host math-library functions (Math.sin, Math.cos, Math.atan2, Math.hypot,
    Math.pow, Math.PI, Math.random) and the canvas dimensions are supplied by
    an explicit environment record `JsEnv`; the games' own arithmetic is
    transcribed literally.
  * `Math.random()` calls are modelled by an explicit stream `rng : ℕ → ℚ`
    with an index threaded through the state.
  * Unbounded `while` loops are modelled with an explicit fuel parameter;
    all theorems quantify over the fuel.
  * Purely decorative state that no game logic reads (motion-trail buffers,
    particles, parallax layers, clouds, birds, toasts) is omitted.
-/

/-- Host environment: canvas size, the Math library and the Math.random stream. -/
structure JsEnv where
  height : ℚ
  width : ℚ
  sin : ℚ → ℚ
  cos : ℚ → ℚ
  atan2 : ℚ → ℚ → ℚ
  hypot : ℚ → ℚ → ℚ
  pow : ℚ → ℚ → ℚ
  pi : ℚ
  rng : ℕ → ℚ

namespace SurfRacer

/- Embedding of src/game.js (Surf Racer, the LUT-decorated surf variant). -/

/-- One entry of the ocean detail LUT (src/game.js lines 57-62, fallback table). -/
structure Detail where
  idx : ℚ
  ripple : ℚ
  foam : ℚ
  sparkle : ℚ
  crest : ℚ
  hue : ℚ
  sat : ℚ
  light : ℚ

/-- One entry of the engine drift LUT (src/game.js lines 63-69, fallback table). -/
structure Drift where
  idx : ℚ
  drag : ℚ
  lift : ℚ
  glide : ℚ
  smooth : ℚ

/-- The fallback `detailLUT` shipped in src/game.js (no external LUT present in the repo). -/
def detailLUT : List Detail := [⟨0, 0, 0.4, 0.2, 0.7, 200, 60, 55⟩]

def detailFallback : Detail := ⟨0, 0, 0.4, 0.2, 0.7, 200, 60, 55⟩

/-- `detailLUT[(k) % detailLUT.length]`; JS remainder of any k by length 1 is 0. -/
def detailAt (k : ℤ) : Detail :=
  detailLUT.getD ((k % (detailLUT.length : ℤ)).toNat) detailFallback

/-- The fallback `driftLUT` shipped in src/game.js. -/
def driftLUT : List Drift := [⟨0, 0, 0, 1, 0.62⟩, ⟨1, 0.2, -0.1, 1.08, 0.7⟩]

def driftFallback : Drift := ⟨0, 0, 0, 1, 0.62⟩

/-- `driftLUT[frameCount % driftLUT.length]` (src/game.js line 306). -/
def driftAt (fc : ℕ) : Drift := driftLUT.getD (fc % driftLUT.length) driftFallback

/-- The `world` config object (src/game.js lines 41-47). -/
structure WorldCfg where
  baseSpeed : ℚ
  minSpeed : ℚ
  maxSpeed : ℚ
  accel : ℚ

def world : WorldCfg := ⟨170, 130, 520, 40⟩

/-- The `physics` object (src/game.js lines 81-85). -/
structure Physics where
  gravity : ℚ
  jumpVelocity : ℚ
  slopeBoost : ℚ

def physics : Physics := ⟨900, -520, 60⟩

/-- The `wave` object (src/game.js lines 49-55); baseY depends on the canvas height. -/
structure Wave where
  baseY : ℚ
  amp : ℚ
  freq : ℚ
  swellAmp : ℚ
  swellFreq : ℚ

def wave (env : JsEnv) : Wave := ⟨env.height * 0.72, 68, 0.011, 18, 0.18⟩

def surferWidth : ℚ := 58

def surferHeight : ℚ := 54

structure Obstacle where
  worldX : ℚ
  width : ℚ
  height : ℚ

inductive Mode where
  | menu
  | playing
  | gameOver
deriving DecidableEq

/-- The mutable module state of src/game.js relevant to the simulation
(`state`, `world.speed`, the `surfer` object, camera/score/obstacle state and
the loop-maintained `frameCount`/`elapsedTime`). The decorative motion trail
is omitted. -/
structure GState where
  mode : Mode
  speed : ℚ
  worldX : ℚ
  screenX : ℚ
  y : ℚ
  vy : ℚ
  grounded : Bool
  cameraX : ℚ
  distance : ℚ
  score : ℤ
  bestScore : ℤ
  obstacles : List Obstacle
  nextObstacleWorldX : ℚ
  rngIdx : ℕ
  frameCount : ℕ
  elapsedTime : ℚ

/-- `getWaveY` (src/game.js lines 167-178). -/
def getWaveY (env : JsEnv) (frameCount : ℕ) (elapsedTime : ℚ) (worldX : ℚ) : ℚ :=
  let w := wave env
  let detail := detailAt ((frameCount : ℤ) + ⌊worldX⌋)
  let swell := env.sin (elapsedTime * w.swellFreq) * (w.swellAmp + detail.crest * 4)
  let amplitude := w.amp + swell + detail.ripple * 6
  let n := worldX * w.freq
  w.baseY + env.sin n * amplitude
    + env.sin (n * 0.5 + 12.3) * amplitude * 0.42
    + env.sin (n * 1.6 + 4.2) * detail.crest * 3.2

/-- `getWaveSlope` with the local constant `delta` generalised to a parameter,
so that the spec's hypothetical `delta = 0` configuration can be stated.
The divisor mirrors the JS expression `2 * delta || 1` (falsy on 0). -/
def getWaveSlopeEps (env : JsEnv) (frameCount : ℕ) (elapsedTime : ℚ)
    (delta worldX : ℚ) : ℚ :=
  let y1 := getWaveY env frameCount elapsedTime (worldX - delta)
  let y2 := getWaveY env frameCount elapsedTime (worldX + delta)
  (y2 - y1) / (if 2 * delta = 0 then 1 else 2 * delta)

/-- `getWaveSlope` (src/game.js lines 180-185) with its `const delta = 2`. -/
def getWaveSlope (env : JsEnv) (frameCount : ℕ) (elapsedTime : ℚ) (worldX : ℚ) : ℚ :=
  getWaveSlopeEps env frameCount elapsedTime 2 worldX

/-- The repeated two-`if` speed clamp of src/game.js (lines 312-313, 325-326, 340-341). -/
def clampSpeed (v : ℚ) : ℚ :=
  let v1 := if v < world.minSpeed then world.minSpeed else v
  if v1 > world.maxSpeed then world.maxSpeed else v1

/-- The top-of-update speed tweaks and clamp (src/game.js lines 306-313). -/
def topSpeed (dt : ℚ) (s : GState) : ℚ :=
  let drift := driftAt s.frameCount
  let smoothingBoost := 1 - drift.smooth * 0.12
  clampSpeed (s.speed + world.accel * dt * drift.glide * smoothingBoost
    + drift.drag * 0.25 * dt)

/-- `surfer.worldX += world.speed * dt` (src/game.js line 316). -/
def newWorldX (dt : ℚ) (s : GState) : ℚ := s.worldX + topSpeed dt s * dt

/-- The grounded-height expression `getWaveY(x) - surfer.height * 0.5 - 8`. -/
def groundYAt (env : JsEnv) (s : GState) (x : ℚ) : ℚ :=
  getWaveY env s.frameCount s.elapsedTime x - surferHeight * 0.5 - 8

/-- Airborne vertical velocity after gravity (src/game.js line 330). -/
def airVy (dt : ℚ) (s : GState) : ℚ :=
  s.vy + (physics.gravity + (driftAt s.frameCount).lift * 6) * dt

/-- Airborne vertical position after integration (src/game.js line 331). -/
def airY (dt : ℚ) (s : GState) : ℚ := s.y + airVy dt s * dt

/-- Result of the ground-vs-air physics branch (src/game.js lines 318-344). -/
structure PhysOut where
  y : ℚ
  vy : ℚ
  sp : ℚ
  grounded : Bool

/-- The per-tick physics of `update`: speed tweaks, forward motion and the
grounded/airborne branch (src/game.js lines 306-344). -/
def physStep (env : JsEnv) (dt : ℚ) (s : GState) : PhysOut :=
  let sp3 := topSpeed dt s
  let wx := newWorldX dt s
  if s.grounded then
    let targetY := groundYAt env s wx
    let slope := getWaveSlope env s.frameCount s.elapsedTime wx
    ⟨targetY, 0, clampSpeed (sp3 + -slope * physics.slopeBoost * dt), true⟩
  else
    let vy1 := airVy dt s
    let y1 := airY dt s
    let groundY := groundYAt env s wx
    if y1 ≥ groundY ∧ vy1 > 0 then
      let slope := getWaveSlope env s.frameCount s.elapsedTime wx
      ⟨groundY, 0, clampSpeed (sp3 + -slope * physics.slopeBoost * 1.5 * dt), true⟩
    else
      ⟨y1, vy1, sp3, false⟩

/-- One `spawnObstacle()` call (src/game.js lines 224-240): draws a random
spacing, pushes an obstacle at the current frontier and advances it. -/
def spawnObstacleStep (env : JsEnv) :
    ℚ × ℕ × List Obstacle → ℚ × ℕ × List Obstacle :=
  fun p =>
    let nextX := p.1
    let i := p.2.1
    let obs := p.2.2
    let spacing := 620 + env.rng i * (1180 - 620)
    (nextX + spacing, i + 1, obs ++ [⟨nextX, 44, 56⟩])

/-- The spawn-ahead `while` loop of `updateObstacles` (src/game.js lines 244-246),
with explicit fuel bounding the number of iterations. -/
def spawnLoop (env : JsEnv) : ℕ → ℚ → ℚ × ℕ × List Obstacle → ℚ × ℕ × List Obstacle
  | 0, _, p => p
  | fuel + 1, limit, p =>
    if p.1 < limit then spawnLoop env fuel limit (spawnObstacleStep env p) else p

/-- `updateObstacles` (src/game.js lines 242-251): spawn ahead of the player,
then drop obstacles behind `cameraX - 200`. -/
def updateObstacles (env : JsEnv) (fuel : ℕ) (worldX cameraX : ℚ)
    (p : ℚ × ℕ × List Obstacle) : ℚ × ℕ × List Obstacle :=
  let q := spawnLoop env fuel (worldX + 1600) p
  (q.1, q.2.1, q.2.2.filter fun o => o.worldX + o.width > cameraX - 200)

/-- `gameOver()` (src/game.js lines 215-221): flips the mode and persists the
best score when beaten. -/
def gameOverUpd (s : GState) : GState :=
  { s with mode := Mode.gameOver
         , bestScore := if s.score > s.bestScore then s.score else s.bestScore }

/-- The AABB test of `checkCollisions` for a single obstacle
(src/game.js lines 363-382). -/
def collides (env : JsEnv) (s : GState) (o : Obstacle) : Prop :=
  let sx := s.screenX - surferWidth / 2
  let sy := s.y - surferHeight / 2
  let screenX := o.worldX - s.cameraX
  let ow := o.width * 0.9
  let oh := o.height * 0.9
  let oy := getWaveY env s.frameCount s.elapsedTime o.worldX - oh
  let ox := screenX + (o.width - ow) / 2
  sx < ox + ow ∧ sx + surferWidth > ox ∧ sy < oy + oh ∧ sy + surferHeight > oy

instance (env : JsEnv) (s : GState) (o : Obstacle) : Decidable (collides env s o) := by
  unfold collides
  infer_instance

/-- `checkCollisions` (src/game.js lines 363-388): the first colliding obstacle
triggers `gameOver()` and the loop breaks; the net state effect is `gameOverUpd`
applied once iff some obstacle collides. -/
def checkCollisionsUpd (env : JsEnv) (s : GState) : GState :=
  if s.obstacles.any (fun o => decide (collides env s o)) then gameOverUpd s else s

/-- `update(dt)` (src/game.js lines 303-361). The decorative
`motionTrail.push` call is omitted. -/
def update (env : JsEnv) (fuel : ℕ) (dt : ℚ) (s : GState) : GState :=
  if s.mode ≠ Mode.playing then s
  else
    let p := physStep env dt s
    let wx := newWorldX dt s
    let cam := wx - s.screenX
    let dist := s.distance + p.sp * dt
    let sc := ⌊dist / 10⌋
    let q := updateObstacles env fuel wx cam (s.nextObstacleWorldX, s.rngIdx, s.obstacles)
    let s1 : GState :=
      { s with speed := p.sp, worldX := wx, y := p.y, vy := p.vy, grounded := p.grounded
             , cameraX := cam, distance := dist, score := sc
             , nextObstacleWorldX := q.1, rngIdx := q.2.1, obstacles := q.2.2 }
    checkCollisionsUpd env s1

/-- `resetGame()` (src/game.js lines 188-207). -/
def resetGame (env : JsEnv) (s : GState) : GState :=
  let y0 := getWaveY env s.frameCount s.elapsedTime 0 - surferHeight * 0.5 - 8
  let p0 : ℚ × ℕ × List Obstacle := (0 + 700, s.rngIdx, [])
  let p4 := spawnObstacleStep env (spawnObstacleStep env
    (spawnObstacleStep env (spawnObstacleStep env p0)))
  { s with speed := world.baseSpeed, worldX := 0, y := y0, vy := 0, grounded := true
         , distance := 0, score := 0
         , nextObstacleWorldX := p4.1, rngIdx := p4.2.1, obstacles := p4.2.2
         , cameraX := 0 - s.screenX }

/-- `startGame()` (src/game.js lines 209-213). -/
def startGame (env : JsEnv) (s : GState) : GState :=
  { resetGame env s with mode := Mode.playing }

/-- `primaryAction()` (src/game.js lines 264-279). -/
def primaryAction (env : JsEnv) (s : GState) : GState :=
  if s.mode = Mode.menu then startGame env s
  else if s.mode = Mode.gameOver then startGame env s
  else if s.mode = Mode.playing then
    if s.grounded then { s with grounded := false, vy := physics.jumpVelocity } else s
  else s

/-- The `engineFilter` sliding-average dt filter state (src/game.js lines 99-114). -/
structure Filter where
  buffer : List ℚ
  index : ℕ
  sum : ℚ
  ready : Bool

def initFilter : Filter := ⟨List.replicate 120 0, 0, 0, false⟩

/-- `engineFilter.smooth(dt)` (src/game.js lines 104-113): returns the smoothed
dt and the new filter state. -/
def engineSmooth (f : Filter) (dt : ℚ) : ℚ × Filter :=
  let sum1 := f.sum - f.buffer.getD f.index 0 + dt
  let buf1 := f.buffer.set f.index dt
  let idx1 := (f.index + 1) % f.buffer.length
  let ready1 := if ¬f.ready ∧ idx1 = 0 then true else f.ready
  let denom : ℚ := if ready1 then (buf1.length : ℚ) else if idx1 = 0 then 1 else (idx1 : ℚ)
  (sum1 / denom, ⟨buf1, idx1, sum1, ready1⟩)

/-- The raw dt of `loop` (src/game.js lines 728-731): the first-frame guard
`if (!lastTime) lastTime = timestamp` (lastTime is initialised to 0 and 0 is
falsy) makes the delta 0 on a frame entered with `lastTime = 0`; afterwards
it is the raw wall-clock delta, with no clamp. -/
def loopRawDt (timestamp lastTime : ℚ) : ℚ :=
  let lt := if lastTime = 0 then timestamp else lastTime
  (timestamp - lt) / 1000

/-- The dt fed to `update` by `loop` (src/game.js lines 728-736): the raw
delta passed through the sliding-average filter; no clamp. -/
def loopSmoothDt (f : Filter) (timestamp lastTime : ℚ) : ℚ :=
  (engineSmooth f (loopRawDt timestamp lastTime)).1

end SurfRacer

namespace SurfDocs

/- Embedding of src/docs/game.js (the plain surf variant: no LUTs, no swell,
no dt filter). Structure mirrors src/game.js with different constants. -/

def world : SurfRacer.WorldCfg := ⟨180, 140, 520, 40⟩

def physics : SurfRacer.Physics := ⟨900, -520, 60⟩

/-- The `wave` object (src/docs/game.js lines 27-31). -/
structure Wave where
  baseY : ℚ
  amp : ℚ
  freq : ℚ

def wave (env : JsEnv) : Wave := ⟨env.height * 0.72, 55, 0.012⟩

def surferWidth : ℚ := 52

def surferHeight : ℚ := 42

/-- Same mutable state as the src/game.js variant, without LUT clocks. -/
structure GState where
  mode : SurfRacer.Mode
  speed : ℚ
  worldX : ℚ
  screenX : ℚ
  y : ℚ
  vy : ℚ
  grounded : Bool
  cameraX : ℚ
  distance : ℚ
  score : ℤ
  bestScore : ℤ
  obstacles : List SurfRacer.Obstacle
  nextObstacleWorldX : ℚ
  rngIdx : ℕ

/-- `getWaveY` (src/docs/game.js lines 61-68). -/
def getWaveY (env : JsEnv) (worldX : ℚ) : ℚ :=
  let w := wave env
  let n := worldX * w.freq
  w.baseY + env.sin n * w.amp + env.sin (n * 0.5 + 12.3) * w.amp * 0.4

/-- `getWaveSlope` with the local `delta` generalised, divisor `2 * delta || 1`. -/
def getWaveSlopeEps (env : JsEnv) (delta worldX : ℚ) : ℚ :=
  let y1 := getWaveY env (worldX - delta)
  let y2 := getWaveY env (worldX + delta)
  (y2 - y1) / (if 2 * delta = 0 then 1 else 2 * delta)

/-- `getWaveSlope` (src/docs/game.js lines 70-75) with its `const delta = 2`. -/
def getWaveSlope (env : JsEnv) (worldX : ℚ) : ℚ := getWaveSlopeEps env 2 worldX

/-- The two-`if` speed clamp of src/docs/game.js (lines 198-199, 211-212, 226-227). -/
def clampSpeed (v : ℚ) : ℚ :=
  let v1 := if v < world.minSpeed then world.minSpeed else v
  if v1 > world.maxSpeed then world.maxSpeed else v1

/-- Top-of-update speed accel and clamp (src/docs/game.js lines 197-199). -/
def topSpeed (dt : ℚ) (s : GState) : ℚ := clampSpeed (s.speed + world.accel * dt)

def newWorldX (dt : ℚ) (s : GState) : ℚ := s.worldX + topSpeed dt s * dt

def groundYAt (env : JsEnv) (x : ℚ) : ℚ := getWaveY env x - surferHeight * 0.5 - 8

def airVy (dt : ℚ) (s : GState) : ℚ := s.vy + physics.gravity * dt

def airY (dt : ℚ) (s : GState) : ℚ := s.y + airVy dt s * dt

/-- The per-tick physics of `update` (src/docs/game.js lines 196-230). -/
def physStep (env : JsEnv) (dt : ℚ) (s : GState) : SurfRacer.PhysOut :=
  let sp3 := topSpeed dt s
  let wx := newWorldX dt s
  if s.grounded then
    let targetY := groundYAt env wx
    let slope := getWaveSlope env wx
    ⟨targetY, 0, clampSpeed (sp3 + -slope * physics.slopeBoost * dt), true⟩
  else
    let vy1 := airVy dt s
    let y1 := airY dt s
    let groundY := groundYAt env wx
    if y1 ≥ groundY ∧ vy1 > 0 then
      let slope := getWaveSlope env wx
      ⟨groundY, 0, clampSpeed (sp3 + -slope * physics.slopeBoost * 1.5 * dt), true⟩
    else
      ⟨y1, vy1, sp3, false⟩

/-- One `spawnObstacle()` call (src/docs/game.js lines 114-130). -/
def spawnObstacleStep (env : JsEnv) :
    ℚ × ℕ × List SurfRacer.Obstacle → ℚ × ℕ × List SurfRacer.Obstacle :=
  fun p =>
    let spacing := 420 + env.rng p.2.1 * (880 - 420)
    (p.1 + spacing, p.2.1 + 1, p.2.2 ++ [⟨p.1, 40, 64⟩])

/-- The spawn-ahead `while` loop, fueled (src/docs/game.js lines 134-136). -/
def spawnLoop (env : JsEnv) :
    ℕ → ℚ → ℚ × ℕ × List SurfRacer.Obstacle → ℚ × ℕ × List SurfRacer.Obstacle
  | 0, _, p => p
  | fuel + 1, limit, p =>
    if p.1 < limit then spawnLoop env fuel limit (spawnObstacleStep env p) else p

/-- `updateObstacles` (src/docs/game.js lines 132-141). -/
def updateObstacles (env : JsEnv) (fuel : ℕ) (worldX cameraX : ℚ)
    (p : ℚ × ℕ × List SurfRacer.Obstacle) : ℚ × ℕ × List SurfRacer.Obstacle :=
  let q := spawnLoop env fuel (worldX + 1600) p
  (q.1, q.2.1, q.2.2.filter fun o => o.worldX + o.width > cameraX - 200)

/-- `gameOver()` (src/docs/game.js lines 105-111). -/
def gameOverUpd (s : GState) : GState :=
  { s with mode := SurfRacer.Mode.gameOver
         , bestScore := if s.score > s.bestScore then s.score else s.bestScore }

/-- One-obstacle AABB test of `checkCollisions` (src/docs/game.js lines 247-265);
here `ox` is the raw screen x (no 0.9 shrink of the box position). -/
def collides (env : JsEnv) (s : GState) (o : SurfRacer.Obstacle) : Prop :=
  let sx := s.screenX - surferWidth / 2
  let sy := s.y - surferHeight / 2
  let ox := o.worldX - s.cameraX
  let oy := getWaveY env o.worldX - o.height
  sx < ox + o.width ∧ sx + surferWidth > ox ∧ sy < oy + o.height ∧ sy + surferHeight > oy

instance (env : JsEnv) (s : GState) (o : SurfRacer.Obstacle) :
    Decidable (collides env s o) := by
  unfold collides
  infer_instance

/-- Net effect of `checkCollisions` (src/docs/game.js lines 247-272). -/
def checkCollisionsUpd (env : JsEnv) (s : GState) : GState :=
  if s.obstacles.any (fun o => decide (collides env s o)) then gameOverUpd s else s

/-- `update(dt)` (src/docs/game.js lines 193-245). -/
def update (env : JsEnv) (fuel : ℕ) (dt : ℚ) (s : GState) : GState :=
  if s.mode ≠ SurfRacer.Mode.playing then s
  else
    let p := physStep env dt s
    let wx := newWorldX dt s
    let cam := wx - s.screenX
    let dist := s.distance + p.sp * dt
    let sc := ⌊dist / 10⌋
    let q := updateObstacles env fuel wx cam (s.nextObstacleWorldX, s.rngIdx, s.obstacles)
    let s1 : GState :=
      { s with speed := p.sp, worldX := wx, y := p.y, vy := p.vy, grounded := p.grounded
             , cameraX := cam, distance := dist, score := sc
             , nextObstacleWorldX := q.1, rngIdx := q.2.1, obstacles := q.2.2 }
    checkCollisionsUpd env s1

/-- `resetGame()` (src/docs/game.js lines 78-97). -/
def resetGame (env : JsEnv) (s : GState) : GState :=
  let y0 := getWaveY env 0 - surferHeight * 0.5 - 8
  let p0 : ℚ × ℕ × List SurfRacer.Obstacle := (0 + 700, s.rngIdx, [])
  let p4 := spawnObstacleStep env (spawnObstacleStep env
    (spawnObstacleStep env (spawnObstacleStep env p0)))
  { s with speed := world.baseSpeed, worldX := 0, y := y0, vy := 0, grounded := true
         , distance := 0, score := 0
         , nextObstacleWorldX := p4.1, rngIdx := p4.2.1, obstacles := p4.2.2
         , cameraX := 0 - s.screenX }

/-- `startGame()` (src/docs/game.js lines 99-103). -/
def startGame (env : JsEnv) (s : GState) : GState :=
  { resetGame env s with mode := SurfRacer.Mode.playing }

/-- `primaryAction()` (src/docs/game.js lines 154-169). -/
def primaryAction (env : JsEnv) (s : GState) : GState :=
  if s.mode = SurfRacer.Mode.menu then startGame env s
  else if s.mode = SurfRacer.Mode.gameOver then startGame env s
  else if s.mode = SurfRacer.Mode.playing then
    if s.grounded then { s with grounded := false, vy := physics.jumpVelocity } else s
  else s

/-- The dt computed by `loop` (src/docs/game.js lines 507-512): 0 on a frame
entered with `lastTime = 0` (the falsy first-frame guard
`if (!lastTime) lastTime = timestamp`), otherwise the raw wall-clock delta,
with no clamp and no filtering. -/
def loopDt (timestamp lastTime : ℚ) : ℚ :=
  let lt := if lastTime = 0 then timestamp else lastTime
  (timestamp - lt) / 1000

end SurfDocs

/-- A JSON value, as produced by a successful `JSON.parse`; `none` from the
abstract parser models a thrown SyntaxError. -/
inductive JsValue where
  | jarr (elems : List JsValue)
  | jnum (q : ℚ)
  | jstr (s : String)
  | jbool (b : Bool)
  | jnull
  | jobj (fields : List (String × JsValue))

/-- `Array.isArray` on a parsed JSON value. -/
def jsIsArray : JsValue → Bool
  | JsValue.jarr _ => true
  | _ => false

/-- The array payload of a parsed JSON value (empty for non-arrays). -/
def jsArrayElems : JsValue → List JsValue
  | JsValue.jarr l => l
  | _ => []

namespace TidalDrop

/- Embedding of src/js/game.js (Tidal Drop, the vertical dodging variant). -/

inductive Mode where
  | menu
  | playing
  | gameover
deriving DecidableEq

inductive ObKind where
  | rock
  | buoy
  | mine
  | other
deriving DecidableEq

structure Ob where
  x : ℚ
  y : ℚ
  radius : ℚ
  kind : ObKind

/-- `SURFER_SPEED` (src/js/game.js line 51). -/
def surferSpeed : ℚ := 320

/-- The mutable module state of src/js/game.js relevant to the simulation. -/
structure GState where
  gameState : Mode
  surferX : ℚ
  surferY : ℚ
  radius : ℚ
  vx : ℚ
  obstacles : List Ob
  spawnTimer : ℚ
  spawnInterval : ℚ
  distance : ℚ
  difficultyTimer : ℚ
  bestScore : ℤ
  pointerDirection : ℤ
  keysLeft : Bool
  keysRight : Bool
  width : ℚ
  height : ℚ
  rngIdx : ℕ

/-- `loadBestScore()` (src/js/game.js lines 76-81). `pint` models
`parseInt(·, 10)` with `none` for NaN; an absent or empty stored string is
falsy and short-circuits to 0. -/
def loadBestScore (pint : String → Option ℤ) (store : Option String) : ℤ :=
  let val : Option ℤ :=
    match store with
    | none => some 0
    | some raw => if raw = "" then some 0 else pint raw
  val.getD 0

/-- `loadScores()` (src/js/game.js lines 91-100). `parse` models `JSON.parse`
with `none` for a thrown SyntaxError; the catch clause returns `[]`, and a
parsed non-array also yields `[]`. The function is total: no exception
escapes. -/
def loadScores (parse : String → Option JsValue) (store : Option String) :
    List JsValue :=
  match store with
  | none => []
  | some raw =>
    if raw = "" then []
    else
      match parse raw with
      | none => []
      | some v => if jsIsArray v then jsArrayElems v else []

/-- `spawnObstacle()` (src/js/game.js lines 215-244): draws position, kind and
radius from the random stream; returns the obstacle and the next stream index.
The `default` switch arm draws no extra random number. -/
def spawnObstacle (env : JsEnv) (w h : ℚ) (i : ℕ) : Ob × ℕ :=
  let x := 40 + env.rng i * (w - 80)
  let y := h + 40
  let k := ⌊env.rng (i + 1) * 3⌋
  if k = 0 then (⟨x, y, 24 + env.rng (i + 2) * 10, ObKind.rock⟩, i + 3)
  else if k = 1 then (⟨x, y, 16 + env.rng (i + 2) * 6, ObKind.buoy⟩, i + 3)
  else if k = 2 then (⟨x, y, 20 + env.rng (i + 2) * 4, ObKind.mine⟩, i + 3)
  else (⟨x, y, 20, ObKind.other⟩, i + 2)

/-- The move/collide/recycle loop over obstacles (src/js/game.js lines
190-212): each obstacle scrolls up; the first circle-circle hit breaks the
loop (later obstacles stay unmoved); moved obstacles past the top margin are
dropped. Returns the new list and whether a collision occurred. -/
def moveObs (scroll dt sx sy srad : ℚ) : List Ob → List Ob × Bool
  | [] => ([], false)
  | o :: rest =>
    let o1 : Ob := { o with y := o.y - scroll * dt }
    if (o1.x - sx) * (o1.x - sx) + (o1.y - sy) * (o1.y - sy)
        < (o1.radius + srad) * (o1.radius + srad) then
      (o1 :: rest, true)
    else
      let r := moveObs scroll dt sx sy srad rest
      if o1.y + o1.radius < -40 then (r.1, r.2) else (o1 :: r.1, r.2)

/-- `update(dt)` (src/js/game.js lines 147-213). On collision, `gameOver()`
(lines 137-145) flips the state and persists the best score. -/
def update (env : JsEnv) (dt : ℚ) (s : GState) : GState :=
  if s.gameState ≠ Mode.playing then s
  else
    let dTimer := s.difficultyTimer + dt
    let factor := 1 + dTimer * 0.08
    let scroll := 170 * factor
    let dist := s.distance + scroll * dt * 0.1
    let d0 : ℤ := (if s.keysLeft then -1 else 0) + (if s.keysRight then 1 else 0)
    let dir : ℤ := if ¬s.keysLeft ∧ ¬s.keysRight then s.pointerDirection else d0
    let vx := (dir : ℚ) * surferSpeed
    let x1 := s.surferX + vx * dt
    let margin : ℚ := 30
    let x2 := if x1 < margin then margin else x1
    let x3 := if x2 > s.width - margin then s.width - margin else x2
    let st1 := s.spawnTimer + dt
    let effInterval := max 0.35 (s.spawnInterval / factor)
    let spawned :=
      if st1 ≥ effInterval then
        let p := spawnObstacle env s.width s.height s.rngIdx
        ((0 : ℚ), s.obstacles ++ [p.1], p.2)
      else (st1, s.obstacles, s.rngIdx)
    let moved := moveObs scroll dt x3 s.surferY s.radius spawned.2.1
    let s1 : GState :=
      { s with difficultyTimer := dTimer, distance := dist, vx := vx, surferX := x3
             , spawnTimer := spawned.1, rngIdx := spawned.2.2, obstacles := moved.1 }
    if moved.2 then
      { s1 with gameState := Mode.gameover
              , bestScore := if ⌊dist⌋ > s.bestScore then ⌊dist⌋ else s.bestScore }
    else s1

/-- The dt computed by `loop` (src/js/game.js lines 443-451): the wall-clock
delta clamped by `Math.min(·, 0.03)`. -/
def loopDt (timestamp lastTimestamp : ℚ) : ℚ :=
  min ((timestamp - lastTimestamp) / 1000) 0.03

end TidalDrop

namespace RacingPenguin

/- Embedding of the hill-glide variant embedded in src/README.md
("Racing Penguin: Slide and Fly"). -/

/-- `clamp(v, min, max)` (README line 86). -/
def jsClamp (v lo hi : ℚ) : ℚ := max lo (min hi v)

/-- `lerp(a, b, t)` (README line 87). -/
def lerp (a b t : ℚ) : ℚ := a + (b - a) * t

/-- `smoothstep(edge0, edge1, x)` (README lines 89-92). -/
def smoothstep (e0 e1 x : ℚ) : ℚ :=
  let t := jsClamp ((x - e0) / (e1 - e0)) 0 1
  t * t * (3 - 2 * t)

/-- The `terrain` config (README lines 132-142); the seed and segment list are
state, the rest are constants. -/
structure TerrainCfg where
  segmentLength : ℚ
  minAmp : ℚ
  maxAmp : ℚ
  minSlope : ℚ
  maxSlope : ℚ

def terrain : TerrainCfg := ⟨380, 120, 240, -0.2, 0.4⟩

structure Segment where
  x : ℚ
  length : ℚ
  amplitude : ℚ
  slope : ℚ
  crest : ℚ

/-- The flat starter segment pushed by `ensureSegments` when the list is
empty (README line 164). -/
def flatSeg : Segment := ⟨-(terrain.segmentLength) * 2, terrain.segmentLength, 0, 0, 1⟩

/-- `generateSegment(startX)` (README lines 146-159); the four `rng()` draws
are taken in source order from the stream at index `i`. -/
def generateSegment (env : JsEnv) (startX : ℚ) (i : ℕ) : Segment × ℕ :=
  let amplitude := lerp terrain.minAmp terrain.maxAmp (env.rng i)
  let length := terrain.segmentLength * (0.8 + env.rng (i + 1) * 0.4)
  let slope := lerp terrain.minSlope terrain.maxSlope (env.rng (i + 2))
  let crest : ℚ := if env.rng (i + 3) > 0.5 then 1 else -1
  (⟨startX, length, amplitude, slope, crest⟩, i + 4)

/-- The forward-extension `while` loop of `ensureSegments` (README lines
169-174), fueled. Note the source captures `const last` once before the loop,
so the guard `last.x + last.length < camera.x + width * 2` never changes and
every iteration appends a segment starting at the same `last.x + last.length`;
when the guard is true the JS loop never terminates, which the fuel bounds. -/
def extendLoop (env : JsEnv) : ℕ → ℚ → ℚ → List Segment × ℕ → List Segment × ℕ
  | 0, _, _, p => p
  | fuel + 1, lastEnd, limit, p =>
    if lastEnd < limit then
      let g := generateSegment env lastEnd p.2
      extendLoop env fuel lastEnd limit (p.1 ++ [g.1], g.2)
    else p

/-- The pruning `while` loop of `ensureSegments` (README lines 176-178):
shift the front segment while the second one has fallen behind the camera. -/
def pruneLoop (camX w : ℚ) : List Segment → List Segment
  | a :: b :: rest =>
    if b.x + b.length < camX - w then pruneLoop camX w (b :: rest) else a :: b :: rest
  | l => l

/-- `ensureSegments()` (README lines 161-179), acting on the segment list and
the random-stream index; `camX` is `camera.x`. -/
def ensureSegments (env : JsEnv) (camX : ℚ) (fuel : ℕ)
    (segs : List Segment) (i : ℕ) : List Segment × ℕ :=
  let init := if segs.isEmpty then
      let g := generateSegment env 0 i
      ([flatSeg, g.1], g.2)
    else (segs, i)
  let last := init.1.getLast?.getD flatSeg
  let e := extendLoop env fuel (last.x + last.length) (camX + env.width * 2) init
  (pruneLoop camX env.width e.1, e.2)

/-- The segment-selection loop of `terrainHeight` (README lines 184-192):
first segment containing x, defaulting to `segments[0]`. -/
def segFind (segs : List Segment) (x : ℚ) : Segment :=
  ((segs.find? fun s => decide (x ≥ s.x ∧ x ≤ s.x + s.length)).getD
    (segs.headD flatSeg))

/-- `heightAtSegment(seg, t, crestDir)` (README lines 217-220). -/
def heightAtSegment (env : JsEnv) (seg : Segment) (t crestDir : ℚ) : ℚ :=
  env.height * 0.55 + seg.slope * seg.length * t
    + env.sin (t * env.pi) * seg.amplitude * crestDir

structure Vec2 where
  x : ℚ
  y : ℚ

/-- `terrainNormal(seg, t, crestDir)` (README lines 202-215); the `|| 1`
guard on `Math.hypot` is the falsy-on-zero fallback. -/
def terrainNormal (env : JsEnv) (seg : Segment) (t crestDir : ℚ) : Vec2 :=
  let dx : ℚ := 1
  let aheadT := jsClamp (t + dx / seg.length) 0 1
  let behindT := jsClamp (t - dx / seg.length) 0 1
  let ahead := heightAtSegment env seg aheadT crestDir
  let behind := heightAtSegment env seg behindT crestDir
  let dy := ahead - behind
  let nx := -dy
  let ny := dx
  let len0 := env.hypot nx ny
  let len := if len0 = 0 then 1 else len0
  ⟨nx / len, ny / len⟩

/-- The height component of `terrainHeight(x)` (README lines 181-200) as a
pure lookup on the current segment list. The source first calls
`ensureSegments()`; on a list already covering the camera window the
extension loop is skipped and pruning only discards segments behind the
camera, which does not affect the first-match lookup at the queried x, so the
lookup is modelled purely. The source also computes an unused
`eased = smoothstep(0, 1, t)`. -/
def terrainHeightY (env : JsEnv) (segs : List Segment) (x : ℚ) : ℚ :=
  let seg := segFind segs x
  let t := (x - seg.x) / seg.length
  let base := env.height * 0.55 + seg.slope * (x - seg.x)
  base + env.sin (t * env.pi) * seg.amplitude * seg.crest

/-- The normal component of `terrainHeight(x)` (README line 199). -/
def terrainNormalAt (env : JsEnv) (segs : List Segment) (x : ℚ) : Vec2 :=
  let seg := segFind segs x
  terrainNormal env seg ((x - seg.x) / seg.length) seg.crest

/-- `slopeAngle(normal)` (README lines 222-225): `Math.atan2(normal.x, normal.y)`. -/
def slopeAngle (env : JsEnv) (n : Vec2) : ℚ := env.atan2 n.x n.y

/-- The `physics` object (README lines 489-499). -/
structure Phys where
  gravity : ℚ
  diveGravity : ℚ
  drag : ℚ
  lift : ℚ
  maxSpeed : ℚ
  groundFriction : ℚ
  airFriction : ℚ
  slopeBoost : ℚ
  perfectThreshold : ℚ

def physics : Phys := ⟨2200, 3800, 0.06, 0.06, 1800, 0.998, 0.992, 1400, 0.45⟩

def penguinWidth : ℚ := 60

def penguinHeight : ℚ := 70

inductive PMode where
  | sliding
  | flying
  | landing
deriving DecidableEq

/-- The `penguin` entity plus the camera/distance state read and written by
`updatePenguin` (README lines 465-481, 111-117, 659). Particle effects and the
unused `lastHillLandTime` field are omitted. -/
structure PState where
  x : ℚ
  y : ℚ
  vy : ℚ
  vx : ℚ
  onGround : Bool
  rotation : ℚ
  pstate : PMode
  diveHeld : Bool
  combo : ℕ
  fish : ℕ
  boosts : ℚ
  scoreDistance : ℤ
  cameraX : ℚ
  distance : ℚ
  camTargetY : ℚ
  camY : ℚ
  shakeTime : ℚ
  shakeStrength : ℚ
  recentPerfect : Bool

/-- `penguin.diveHeld ? physics.diveGravity : physics.gravity` (README line 703). -/
def desiredGravity (held : Bool) : ℚ :=
  if held then physics.diveGravity else physics.gravity

/-- Airborne `penguin.vy += desiredGravity * dt` (README line 744). -/
def airVy1 (held : Bool) (dt : ℚ) (s : PState) : ℚ := s.vy + desiredGravity held * dt

/-- Airborne vx after air friction and its clamp to `[0, maxSpeed * 1.4]`
(README lines 745-746). -/
def airVx2 (dt : ℚ) (s : PState) : ℚ :=
  jsClamp (s.vx * (1 - physics.airFriction * dt)) 0 (physics.maxSpeed * 1.4)

/-- Airborne vy after the release-lift term (README lines 749-751). -/
def airVyLift (held : Bool) (dt : ℚ) (s : PState) : ℚ :=
  if ¬held ∧ airVy1 held dt s > 0 then
    airVy1 held dt s - physics.lift * airVx2 dt s * dt
  else airVy1 held dt s

/-- The boost spent this airborne tick (README lines 754-756). -/
def boostSpend (held : Bool) (dt : ℚ) (s : PState) : ℚ :=
  if s.boosts > 0 ∧ ¬held then min s.boosts (dt * 0.35) else 0

/-- Airborne vy after gravity, lift and boost spending (README lines 744-757). -/
def airVy3 (held : Bool) (dt : ℚ) (s : PState) : ℚ :=
  airVyLift held dt s - 220 * boostSpend held dt s

/-- Airborne vx after friction, clamp and boost spending (README lines 745-758). -/
def airVx3 (held : Bool) (dt : ℚ) (s : PState) : ℚ :=
  airVx2 dt s + 40 * boostSpend held dt s

/-- Airborne `penguin.y += penguin.vy * dt` (README line 766). -/
def airY1 (held : Bool) (dt : ℚ) (s : PState) : ℚ := s.y + airVy3 held dt s * dt

/-- `const footY = penguin.y + penguin.height * 0.4` after integration
(README line 769). -/
def footY (held : Bool) (dt : ℚ) (s : PState) : ℚ :=
  airY1 held dt s + penguinHeight * 0.4

/-- `updatePenguin(dt)` (README lines 701-804). `held` is `input.held`; `segs`
is the current terrain segment list (see `terrainHeightY` on the embedded
`ensureSegments` call). Particle spawning and the HUD text writes are omitted. -/
def updatePenguin (env : JsEnv) (segs : List Segment) (held : Bool) (dt : ℚ)
    (s : PState) : PState :=
  let worldX := s.cameraX + s.x
  let groundY := terrainHeightY env segs worldX
  let slope := slopeAngle env (terrainNormalAt env segs worldX)
  let core : PState :=
    if s.onGround then
      let rot1 := lerp s.rotation slope 0.18
      let tangentSpeed := s.vx
      let diveForce : ℚ := if held then 1 else 0
      let vx1 := s.vx + env.sin slope * physics.slopeBoost * dt * (0.6 + diveForce * 0.85)
      let vx2 := vx1 * env.pow physics.groundFriction (dt * 60)
      let vx3 := jsClamp vx2 0 physics.maxSpeed
      let vx4 := if vx3 < 140 then lerp vx3 180 (dt * 2.2) else vx3
      let y1 := groundY - penguinHeight * 0.5
      let crested : Bool × PMode × ℚ :=
        if slope < -0.2 ∧ ¬held ∧ tangentSpeed > 120 then
          (false, PMode.flying, -(max 420 (tangentSpeed * 0.4)))
        else (true, s.pstate, 0)
      let dived : ℚ × ℚ :=
        if held then (vx4 + env.cos slope * 220 * dt, crested.2.2 + env.sin slope * 180 * dt)
        else (vx4, crested.2.2)
      { s with diveHeld := held, rotation := rot1, vx := dived.1, y := y1
             , vy := dived.2, onGround := crested.1, pstate := crested.2.1 }
    else
      let vy3 := airVy3 held dt s
      let vx3 := airVx3 held dt s
      let boosts1 := s.boosts - boostSpend held dt s
      let rot1 := lerp s.rotation (env.atan2 vy3 (vx3 + 1) * 0.48) 0.1
      if footY held dt s ≥ groundY then
        let impact := |vy3|
        let landingAngle := |slope|
        if landingAngle < physics.perfectThreshold ∧ impact > 200 then
          { s with diveHeld := held, boosts := boosts1, rotation := rot1
                 , onGround := true, pstate := PMode.sliding
                 , y := groundY - penguinHeight * 0.4, vy := 0
                 , combo := s.combo + 1, vx := vx3 + min 600 (impact * 0.8)
                 , shakeTime := 0.25, shakeStrength := 10, recentPerfect := true }
        else
          { s with diveHeld := held, boosts := boosts1, rotation := rot1
                 , onGround := true, pstate := PMode.sliding
                 , y := groundY - penguinHeight * 0.4, vy := 0
                 , combo := 0, vx := vx3 * 0.75 }
      else
        { s with diveHeld := held, boosts := boosts1, rotation := rot1
               , onGround := false, y := airY1 held dt s, vy := vy3, vx := vx3 }
  let forward := (core.vx + 280) * dt
  let cam1 := core.cameraX + forward
  let dist1 := core.distance + forward
  let ct := lerp core.camTargetY (core.y - penguinHeight * 0.35) 0.1
  { core with cameraX := cam1, distance := dist1, scoreDistance := ⌊dist1 / 10⌋
            , camTargetY := ct, camY := lerp core.camY ct 0.2 }

/-- `loadBest()` (README lines 530-534): `parseInt(getItem(...) || "0", 10)`,
NaN falling back to 0; total, no exception escapes. -/
def loadBest (pint : String → Option ℤ) (store : Option String) : ℤ :=
  let raw := match store with
    | none => "0"
    | some r => if r = "" then "0" else r
  (pint raw).getD 0

/-- `loadScores()` (README lines 546-553): `JSON.parse(getItem(...) || "[]")`
inside try/catch, non-arrays and parse failures yielding `[]`; total. -/
def loadScores (parse : String → Option JsValue) (store : Option String) :
    List JsValue :=
  let raw := match store with
    | none => "[]"
    | some r => if r = "" then "[]" else r
  match parse raw with
  | none => []
  | some v => if jsIsArray v then jsArrayElems v else []

/-- The frame dt of `loop` (README lines 1082-1084):
`Math.min((timestamp - lastTime) / 1000, 0.05)`. -/
def frameDt (timestamp lastTime : ℚ) : ℚ :=
  min ((timestamp - lastTime) / 1000) 0.05

end RacingPenguin

/- Concrete instances used to evaluate the models on specific inputs. -/

/-- A concrete host environment: a 1000 by 500 canvas and arbitrary concrete
stand-ins for the host Math library and Math.random. The instances below only
query these functions where their value is irrelevant (multiplied by a zero
amplitude) or where any fixed value suffices. -/
def testEnv : JsEnv :=
  ⟨1000, 500, fun _ => 0, fun _ => 1, fun _ _ => 0, fun _ _ => 1, fun _ _ => 1, 3,
    fun _ => 0⟩

/-- A single flat, level terrain segment covering the instances' worldX range;
on it `terrainHeightY` is 1000 * 0.55 = 550 for every x in range. -/
def flatSegs : List RacingPenguin.Segment := [⟨-100000, 200000, 0, 0, 1⟩]

/-- Airborne penguin at top speed falling fast just above flat ground:
the next tick is a perfect landing. -/
def c1Pen : RacingPenguin.PState :=
  { x := 100, y := 522, vy := 600, vx := 1800, onGround := false, rotation := 0
  , pstate := RacingPenguin.PMode.flying, diveHeld := false, combo := 0, fish := 0
  , boosts := 0, scoreDistance := 0, cameraX := 0, distance := 0, camTargetY := 0
  , camY := 0, shakeTime := 0, shakeStrength := 0, recentPerfect := false }

/-- Airborne penguin moving upward (vy strongly negative) whose feet are
nevertheless below the terrain height at the current worldX. -/
def c3Pen : RacingPenguin.PState := { c1Pen with y := 560, vy := -2000, vx := 0 }

/-- Airborne penguin used to instantiate the landing-classification theorem. -/
def c4Pen : RacingPenguin.PState := { c1Pen with y := 540, vy := 500, vx := 400 }

/-- A Playing, grounded Surf Racer state. -/
def surfGround : SurfRacer.GState :=
  { mode := SurfRacer.Mode.playing, speed := 170, worldX := 0, screenX := 125
  , y := 659, vy := 0, grounded := true, cameraX := -125, distance := 0, score := 0
  , bestScore := 0, obstacles := [], nextObstacleWorldX := 700, rngIdx := 0
  , frameCount := 0, elapsedTime := 0 }

/-- A Playing, airborne Surf Racer state. -/
def surfAir : SurfRacer.GState := { surfGround with grounded := false, vy := -520 }

/-- A Playing, grounded state of the docs surf variant. -/
def docsGround : SurfDocs.GState :=
  { mode := SurfRacer.Mode.playing, speed := 180, worldX := 0, screenX := 125
  , y := 691, vy := 0, grounded := true, cameraX := -125, distance := 0, score := 0
  , bestScore := 0, obstacles := [], nextObstacleWorldX := 700, rngIdx := 0 }

/-- A Playing, airborne state of the docs surf variant. -/
def docsAir : SurfDocs.GState := { docsGround with grounded := false, vy := -520 }

/-- A Playing Tidal Drop state on an 800 px wide window. -/
def tidalPlay : TidalDrop.GState :=
  { gameState := TidalDrop.Mode.playing, surferX := 400, surferY := 120, radius := 18
  , vx := 0, obstacles := [], spawnTimer := 0, spawnInterval := 0.85, distance := 0
  , difficultyTimer := 0, bestScore := 0, pointerDirection := 1, keysLeft := false
  , keysRight := false, width := 800, height := 600, rngIdx := 0 }

/- Helper lemmas shared by the claim theorems. -/

theorem surfRacer_clampSpeed_mem (v : ℚ) :
    SurfRacer.world.minSpeed ≤ SurfRacer.clampSpeed v ∧
      SurfRacer.clampSpeed v ≤ SurfRacer.world.maxSpeed := by
  simp only [SurfRacer.clampSpeed, SurfRacer.world]
  split_ifs with h1 h2 h3 <;> constructor <;> linarith

theorem surfDocs_clampSpeed_mem (v : ℚ) :
    SurfDocs.world.minSpeed ≤ SurfDocs.clampSpeed v ∧
      SurfDocs.clampSpeed v ≤ SurfDocs.world.maxSpeed := by
  simp only [SurfDocs.clampSpeed, SurfDocs.world]
  split_ifs with h1 h2 h3 <;> constructor <;> linarith

theorem surfRacer_physStep_sp_mem (env : JsEnv) (dt : ℚ) (s : SurfRacer.GState) :
    SurfRacer.world.minSpeed ≤ (SurfRacer.physStep env dt s).sp ∧
      (SurfRacer.physStep env dt s).sp ≤ SurfRacer.world.maxSpeed := by
  unfold SurfRacer.physStep
  dsimp only
  split_ifs
  · exact surfRacer_clampSpeed_mem _
  · exact surfRacer_clampSpeed_mem _
  · exact surfRacer_clampSpeed_mem _

theorem surfDocs_physStep_sp_mem (env : JsEnv) (dt : ℚ) (s : SurfDocs.GState) :
    SurfDocs.world.minSpeed ≤ (SurfDocs.physStep env dt s).sp ∧
      (SurfDocs.physStep env dt s).sp ≤ SurfDocs.world.maxSpeed := by
  unfold SurfDocs.physStep
  dsimp only
  split_ifs
  · exact surfDocs_clampSpeed_mem _
  · exact surfDocs_clampSpeed_mem _
  · exact surfDocs_clampSpeed_mem _

theorem surfRacer_update_fields (env : JsEnv) (fuel : ℕ) (dt : ℚ)
    (s : SurfRacer.GState) (h : s.mode = SurfRacer.Mode.playing) :
    (SurfRacer.update env fuel dt s).speed = (SurfRacer.physStep env dt s).sp ∧
    (SurfRacer.update env fuel dt s).y = (SurfRacer.physStep env dt s).y ∧
    (SurfRacer.update env fuel dt s).vy = (SurfRacer.physStep env dt s).vy ∧
    (SurfRacer.update env fuel dt s).grounded = (SurfRacer.physStep env dt s).grounded := by
  unfold SurfRacer.update
  rw [if_neg (by simp [h])]
  unfold SurfRacer.checkCollisionsUpd
  dsimp only
  split
  · exact ⟨rfl, rfl, rfl, rfl⟩
  · exact ⟨rfl, rfl, rfl, rfl⟩

theorem surfDocs_update_fields (env : JsEnv) (fuel : ℕ) (dt : ℚ)
    (s : SurfDocs.GState) (h : s.mode = SurfRacer.Mode.playing) :
    (SurfDocs.update env fuel dt s).speed = (SurfDocs.physStep env dt s).sp ∧
    (SurfDocs.update env fuel dt s).y = (SurfDocs.physStep env dt s).y ∧
    (SurfDocs.update env fuel dt s).vy = (SurfDocs.physStep env dt s).vy ∧
    (SurfDocs.update env fuel dt s).grounded = (SurfDocs.physStep env dt s).grounded := by
  unfold SurfDocs.update
  rw [if_neg (by simp [h])]
  unfold SurfDocs.checkCollisionsUpd
  dsimp only
  split
  · exact ⟨rfl, rfl, rfl, rfl⟩
  · exact ⟨rfl, rfl, rfl, rfl⟩

theorem surfRacer_physStep_grounded (env : JsEnv) (dt : ℚ) (s : SurfRacer.GState)
    (h : s.grounded = true) :
    SurfRacer.physStep env dt s =
      ⟨SurfRacer.groundYAt env s (SurfRacer.newWorldX dt s), 0,
       SurfRacer.clampSpeed (SurfRacer.topSpeed dt s
         + -(SurfRacer.getWaveSlope env s.frameCount s.elapsedTime
              (SurfRacer.newWorldX dt s)) * SurfRacer.physics.slopeBoost * dt),
       true⟩ := by
  unfold SurfRacer.physStep
  rw [h]
  rfl

theorem surfDocs_physStep_grounded (env : JsEnv) (dt : ℚ) (s : SurfDocs.GState)
    (h : s.grounded = true) :
    SurfDocs.physStep env dt s =
      ⟨SurfDocs.groundYAt env (SurfDocs.newWorldX dt s), 0,
       SurfDocs.clampSpeed (SurfDocs.topSpeed dt s
         + -(SurfDocs.getWaveSlope env (SurfDocs.newWorldX dt s))
             * SurfDocs.physics.slopeBoost * dt),
       true⟩ := by
  unfold SurfDocs.physStep
  rw [h]
  rfl

theorem surfRacer_physStep_air_grounded (env : JsEnv) (dt : ℚ) (s : SurfRacer.GState)
    (h : s.grounded = false) :
    ((SurfRacer.physStep env dt s).grounded = true ↔
      SurfRacer.airY dt s ≥ SurfRacer.groundYAt env s (SurfRacer.newWorldX dt s) ∧
        SurfRacer.airVy dt s > 0) := by
  unfold SurfRacer.physStep
  rw [h]
  rw [if_neg (by simp)]
  dsimp only
  split_ifs with hc
  · simp [hc]
  · simp [hc]

theorem surfDocs_physStep_air_grounded (env : JsEnv) (dt : ℚ) (s : SurfDocs.GState)
    (h : s.grounded = false) :
    ((SurfDocs.physStep env dt s).grounded = true ↔
      SurfDocs.airY dt s ≥ SurfDocs.groundYAt env (SurfDocs.newWorldX dt s) ∧
        SurfDocs.airVy dt s > 0) := by
  unfold SurfDocs.physStep
  rw [h]
  rw [if_neg (by simp)]
  dsimp only
  split_ifs with hc
  · simp [hc]
  · simp [hc]

theorem penguin_land_perfect (env : JsEnv) (segs : List RacingPenguin.Segment)
    (held : Bool) (dt : ℚ) (s : RacingPenguin.PState) (h : s.onGround = false)
    (hf : RacingPenguin.footY held dt s ≥
      RacingPenguin.terrainHeightY env segs (s.cameraX + s.x))
    (hp : |RacingPenguin.slopeAngle env
            (RacingPenguin.terrainNormalAt env segs (s.cameraX + s.x))| <
          RacingPenguin.physics.perfectThreshold ∧
          |RacingPenguin.airVy3 held dt s| > 200) :
    (RacingPenguin.updatePenguin env segs held dt s).onGround = true ∧
    (RacingPenguin.updatePenguin env segs held dt s).vy = 0 ∧
    (RacingPenguin.updatePenguin env segs held dt s).combo = s.combo + 1 ∧
    (RacingPenguin.updatePenguin env segs held dt s).vx =
      RacingPenguin.airVx3 held dt s + min 600 (|RacingPenguin.airVy3 held dt s| * 0.8) := by
  unfold RacingPenguin.updatePenguin
  rw [h]
  simp only [Bool.false_eq_true, if_false]
  rw [if_pos hf, if_pos hp]
  exact ⟨rfl, rfl, rfl, rfl⟩

theorem penguin_land_imperfect (env : JsEnv) (segs : List RacingPenguin.Segment)
    (held : Bool) (dt : ℚ) (s : RacingPenguin.PState) (h : s.onGround = false)
    (hf : RacingPenguin.footY held dt s ≥
      RacingPenguin.terrainHeightY env segs (s.cameraX + s.x))
    (hp : ¬(|RacingPenguin.slopeAngle env
            (RacingPenguin.terrainNormalAt env segs (s.cameraX + s.x))| <
          RacingPenguin.physics.perfectThreshold ∧
          |RacingPenguin.airVy3 held dt s| > 200)) :
    (RacingPenguin.updatePenguin env segs held dt s).onGround = true ∧
    (RacingPenguin.updatePenguin env segs held dt s).vy = 0 ∧
    (RacingPenguin.updatePenguin env segs held dt s).combo = 0 ∧
    (RacingPenguin.updatePenguin env segs held dt s).vx =
      RacingPenguin.airVx3 held dt s * 0.75 := by
  unfold RacingPenguin.updatePenguin
  rw [h]
  simp only [Bool.false_eq_true, if_false]
  rw [if_pos hf, if_neg hp]
  exact ⟨rfl, rfl, rfl, rfl⟩

theorem penguin_air_nolanding (env : JsEnv) (segs : List RacingPenguin.Segment)
    (held : Bool) (dt : ℚ) (s : RacingPenguin.PState) (h : s.onGround = false)
    (hf : ¬(RacingPenguin.footY held dt s ≥
      RacingPenguin.terrainHeightY env segs (s.cameraX + s.x))) :
    (RacingPenguin.updatePenguin env segs held dt s).onGround = false ∧
    (RacingPenguin.updatePenguin env segs held dt s).vy =
      RacingPenguin.airVy3 held dt s ∧
    (RacingPenguin.updatePenguin env segs held dt s).vx =
      RacingPenguin.airVx3 held dt s := by
  unfold RacingPenguin.updatePenguin
  rw [h]
  simp only [Bool.false_eq_true, if_false]
  rw [if_neg hf]
  exact ⟨rfl, rfl, rfl⟩

theorem flatSegs_segFind (x : ℚ) (h1 : -100000 ≤ x) (h2 : x ≤ 100000) :
    RacingPenguin.segFind flatSegs x = ⟨-100000, 200000, 0, 0, 1⟩ := by
  unfold RacingPenguin.segFind flatSegs
  rw [List.find?_cons_of_pos]
  · rfl
  · simp only [decide_eq_true_eq]
    refine ⟨h1, by linarith⟩

theorem flatSegs_height (env : JsEnv) (x : ℚ) (h1 : -100000 ≤ x) (h2 : x ≤ 100000) :
    RacingPenguin.terrainHeightY env flatSegs x = env.height * 0.55 := by
  unfold RacingPenguin.terrainHeightY
  rw [flatSegs_segFind x h1 h2]
  dsimp only
  ring

/- Claim theorems. -/

/-- C1 (amended): in both surf variants (src/game.js and src/docs/game.js),
after every Playing tick of `update` the forward speed satisfies
`minSpeed ≤ speed ≤ maxSpeed`, in the Grounded and the Airborne state alike,
because the two-`if` clamp follows every modification of the speed there.
The original claim's extension to the hill-glide variant fails: see the
counterexample, where the landing bonus is applied with no clamp after it. -/
theorem c1_theorem :
    (∀ (env : JsEnv) (fuel : ℕ) (dt : ℚ) (s : SurfRacer.GState),
        s.mode = SurfRacer.Mode.playing →
        SurfRacer.world.minSpeed ≤ (SurfRacer.update env fuel dt s).speed ∧
          (SurfRacer.update env fuel dt s).speed ≤ SurfRacer.world.maxSpeed) ∧
    (∀ (env : JsEnv) (fuel : ℕ) (dt : ℚ) (s : SurfDocs.GState),
        s.mode = SurfRacer.Mode.playing →
        SurfDocs.world.minSpeed ≤ (SurfDocs.update env fuel dt s).speed ∧
          (SurfDocs.update env fuel dt s).speed ≤ SurfDocs.world.maxSpeed) := by
  constructor
  · intro env fuel dt s h
    rw [(surfRacer_update_fields env fuel dt s h).1]
    exact surfRacer_physStep_sp_mem env dt s
  · intro env fuel dt s h
    rw [(surfDocs_update_fields env fuel dt s h).1]
    exact surfDocs_physStep_sp_mem env dt s

/-- C1 counterexample: in the hill-glide variant (src/README.md
`updatePenguin`), a tick with a perfect landing leaves the forward speed
strictly above `physics.maxSpeed`: the bonus `vx += min(600, impact * 0.8)`
has no clamp after it. Here the penguin falls onto flat terrain at
`vx = maxSpeed = 1800` and ends the tick with vx greater than 2278. -/
theorem c1_counterexample :
    RacingPenguin.physics.maxSpeed <
      (RacingPenguin.updatePenguin testEnv flatSegs false (1/60) c1Pen).vx := by
  have hvy : RacingPenguin.airVy3 false (1/60) c1Pen = 5952154 / 9375 := by
    norm_num [RacingPenguin.airVy3, RacingPenguin.airVyLift, RacingPenguin.airVy1,
      RacingPenguin.airVx2, RacingPenguin.boostSpend, RacingPenguin.desiredGravity,
      RacingPenguin.jsClamp, RacingPenguin.physics, c1Pen]
  have hvx : RacingPenguin.airVx3 false (1/60) c1Pen = 44256 / 25 := by
    norm_num [RacingPenguin.airVx3, RacingPenguin.airVx2, RacingPenguin.boostSpend,
      RacingPenguin.jsClamp, RacingPenguin.physics, c1Pen]
  have hground : RacingPenguin.terrainHeightY testEnv flatSegs
      (c1Pen.cameraX + c1Pen.x) = 550 := by
    rw [show c1Pen.cameraX + c1Pen.x = 100 from by norm_num [c1Pen]]
    rw [flatSegs_height testEnv 100 (by norm_num) (by norm_num)]
    norm_num [testEnv]
  have hfoot : RacingPenguin.footY false (1/60) c1Pen ≥
      RacingPenguin.terrainHeightY testEnv flatSegs (c1Pen.cameraX + c1Pen.x) := by
    rw [hground]
    unfold RacingPenguin.footY RacingPenguin.airY1
    rw [hvy]
    norm_num [c1Pen, RacingPenguin.penguinHeight]
  have hslope : RacingPenguin.slopeAngle testEnv
      (RacingPenguin.terrainNormalAt testEnv flatSegs (c1Pen.cameraX + c1Pen.x)) = 0 := rfl
  have hp : |RacingPenguin.slopeAngle testEnv
      (RacingPenguin.terrainNormalAt testEnv flatSegs (c1Pen.cameraX + c1Pen.x))| <
        RacingPenguin.physics.perfectThreshold ∧
      |RacingPenguin.airVy3 false (1/60) c1Pen| > 200 := by
    rw [hslope, hvy, abs_zero]
    rw [abs_of_nonneg (by norm_num : (0:ℚ) ≤ 5952154 / 9375)]
    norm_num [RacingPenguin.physics]
  have hr := penguin_land_perfect testEnv flatSegs false (1/60) c1Pen rfl hfoot hp
  rw [hr.2.2.2, hvx, hvy]
  rw [abs_of_nonneg (by norm_num : (0:ℚ) ≤ 5952154 / 9375)]
  rw [min_eq_right (by norm_num : (5952154 / 9375 : ℚ) * 0.8 ≤ 600)]
  norm_num [RacingPenguin.physics]

/-- Witness for C1 at concrete Playing states of the two surf variants. -/
theorem c1_witness :
    (SurfRacer.world.minSpeed ≤ (SurfRacer.update testEnv 0 1 surfGround).speed ∧
      (SurfRacer.update testEnv 0 1 surfGround).speed ≤ SurfRacer.world.maxSpeed) ∧
    (SurfDocs.world.minSpeed ≤ (SurfDocs.update testEnv 0 1 docsGround).speed ∧
      (SurfDocs.update testEnv 0 1 docsGround).speed ≤ SurfDocs.world.maxSpeed) :=
  ⟨c1_theorem.1 testEnv 0 1 surfGround rfl, c1_theorem.2 testEnv 0 1 docsGround rfl⟩

/-- C2 (confirmed): in the surf variants, on every Playing tick with the
rider Grounded, the forward speed becomes the clamp of
`topSpeed + (-slope(worldX)) * slopeBoost * dt` (the slope increment applied
before the clamp), the vertical position is set exactly to
`getWaveY(worldX) - height * 0.5 - 8` at the post-move worldX, and the
vertical velocity is held at 0. -/
theorem c2_theorem :
    (∀ (env : JsEnv) (fuel : ℕ) (dt : ℚ) (s : SurfRacer.GState),
        s.mode = SurfRacer.Mode.playing → s.grounded = true →
        (SurfRacer.update env fuel dt s).speed =
          SurfRacer.clampSpeed (SurfRacer.topSpeed dt s +
            -(SurfRacer.getWaveSlope env s.frameCount s.elapsedTime
                (SurfRacer.newWorldX dt s)) * SurfRacer.physics.slopeBoost * dt) ∧
        (SurfRacer.update env fuel dt s).y =
          SurfRacer.getWaveY env s.frameCount s.elapsedTime (SurfRacer.newWorldX dt s)
            - SurfRacer.surferHeight * 0.5 - 8 ∧
        (SurfRacer.update env fuel dt s).vy = 0) ∧
    (∀ (env : JsEnv) (fuel : ℕ) (dt : ℚ) (s : SurfDocs.GState),
        s.mode = SurfRacer.Mode.playing → s.grounded = true →
        (SurfDocs.update env fuel dt s).speed =
          SurfDocs.clampSpeed (SurfDocs.topSpeed dt s +
            -(SurfDocs.getWaveSlope env (SurfDocs.newWorldX dt s))
              * SurfDocs.physics.slopeBoost * dt) ∧
        (SurfDocs.update env fuel dt s).y =
          SurfDocs.getWaveY env (SurfDocs.newWorldX dt s)
            - SurfDocs.surferHeight * 0.5 - 8 ∧
        (SurfDocs.update env fuel dt s).vy = 0) := by
  constructor
  · intro env fuel dt s hm hg
    have hf := surfRacer_update_fields env fuel dt s hm
    rw [surfRacer_physStep_grounded env dt s hg] at hf
    exact ⟨hf.1, hf.2.1, hf.2.2.1⟩
  · intro env fuel dt s hm hg
    have hf := surfDocs_update_fields env fuel dt s hm
    rw [surfDocs_physStep_grounded env dt s hg] at hf
    exact ⟨hf.1, hf.2.1, hf.2.2.1⟩

/-- Witness for C2 at concrete Playing, Grounded states of both surf variants. -/
theorem c2_witness :
    ((SurfRacer.update testEnv 0 1 surfGround).speed =
      SurfRacer.clampSpeed (SurfRacer.topSpeed 1 surfGround +
        -(SurfRacer.getWaveSlope testEnv surfGround.frameCount surfGround.elapsedTime
            (SurfRacer.newWorldX 1 surfGround)) * SurfRacer.physics.slopeBoost * 1) ∧
     (SurfRacer.update testEnv 0 1 surfGround).y =
       SurfRacer.getWaveY testEnv surfGround.frameCount surfGround.elapsedTime
         (SurfRacer.newWorldX 1 surfGround) - SurfRacer.surferHeight * 0.5 - 8 ∧
     (SurfRacer.update testEnv 0 1 surfGround).vy = 0) ∧
    ((SurfDocs.update testEnv 0 1 docsGround).speed =
      SurfDocs.clampSpeed (SurfDocs.topSpeed 1 docsGround +
        -(SurfDocs.getWaveSlope testEnv (SurfDocs.newWorldX 1 docsGround))
          * SurfDocs.physics.slopeBoost * 1) ∧
     (SurfDocs.update testEnv 0 1 docsGround).y =
       SurfDocs.getWaveY testEnv (SurfDocs.newWorldX 1 docsGround)
         - SurfDocs.surferHeight * 0.5 - 8 ∧
     (SurfDocs.update testEnv 0 1 docsGround).vy = 0) :=
  ⟨c2_theorem.1 testEnv 0 1 surfGround rfl rfl,
   c2_theorem.2 testEnv 0 1 docsGround rfl rfl⟩

/-- C3 (amended): in the surf variants the Airborne-to-Grounded transition
occurs on a Playing tick iff the integrated position has reached or crossed
the ground height at the current worldX and the integrated vertical velocity
is downward (greater than 0, y-down). In the hill-glide variant the
foot-position landing test is `footY ≥ groundY` alone: there is no
downward-motion conjunct (see the counterexample, which lands while moving
upward). -/
theorem c3_theorem :
    (∀ (env : JsEnv) (fuel : ℕ) (dt : ℚ) (s : SurfRacer.GState),
        s.mode = SurfRacer.Mode.playing → s.grounded = false →
        ((SurfRacer.update env fuel dt s).grounded = true ↔
          SurfRacer.airY dt s ≥ SurfRacer.groundYAt env s (SurfRacer.newWorldX dt s) ∧
            SurfRacer.airVy dt s > 0)) ∧
    (∀ (env : JsEnv) (fuel : ℕ) (dt : ℚ) (s : SurfDocs.GState),
        s.mode = SurfRacer.Mode.playing → s.grounded = false →
        ((SurfDocs.update env fuel dt s).grounded = true ↔
          SurfDocs.airY dt s ≥ SurfDocs.groundYAt env (SurfDocs.newWorldX dt s) ∧
            SurfDocs.airVy dt s > 0)) ∧
    (∀ (env : JsEnv) (segs : List RacingPenguin.Segment) (held : Bool) (dt : ℚ)
        (s : RacingPenguin.PState), s.onGround = false →
        ((RacingPenguin.updatePenguin env segs held dt s).onGround = true ↔
          RacingPenguin.footY held dt s ≥
            RacingPenguin.terrainHeightY env segs (s.cameraX + s.x))) := by
  refine ⟨?_, ?_, ?_⟩
  · intro env fuel dt s hm hg
    rw [(surfRacer_update_fields env fuel dt s hm).2.2.2]
    exact surfRacer_physStep_air_grounded env dt s hg
  · intro env fuel dt s hm hg
    rw [(surfDocs_update_fields env fuel dt s hm).2.2.2]
    exact surfDocs_physStep_air_grounded env dt s hg
  · intro env segs held dt s h
    by_cases hf : RacingPenguin.footY held dt s ≥
      RacingPenguin.terrainHeightY env segs (s.cameraX + s.x)
    · by_cases hp : |RacingPenguin.slopeAngle env
          (RacingPenguin.terrainNormalAt env segs (s.cameraX + s.x))| <
            RacingPenguin.physics.perfectThreshold ∧
          |RacingPenguin.airVy3 held dt s| > 200
      · have hr := penguin_land_perfect env segs held dt s h hf hp
        simp [hr.1, hf]
      · have hr := penguin_land_imperfect env segs held dt s h hf hp
        simp [hr.1, hf]
    · have hr := penguin_air_nolanding env segs held dt s h hf
      simp [hr.1, hf]

/-- C3 counterexample: in the hill-glide variant a tick in which the penguin
is moving upward the whole time (vy stays strictly negative) still lands,
because the foot-position test has no `vy > 0` conjunct: here the penguin
(moving up at 2000 px per s into terrain that is higher at the new worldX)
ends the tick Grounded. -/
theorem c3_counterexample :
    (RacingPenguin.updatePenguin testEnv flatSegs false (1/60) c3Pen).onGround = true ∧
    RacingPenguin.airVy3 false (1/60) c3Pen < 0 ∧ c3Pen.vy < 0 := by
  have hvy : RacingPenguin.airVy3 false (1/60) c3Pen = -5890/3 := by
    norm_num [RacingPenguin.airVy3, RacingPenguin.airVyLift, RacingPenguin.airVy1,
      RacingPenguin.airVx2, RacingPenguin.boostSpend, RacingPenguin.desiredGravity,
      RacingPenguin.jsClamp, RacingPenguin.physics, c3Pen, c1Pen]
  have hground : RacingPenguin.terrainHeightY testEnv flatSegs
      (c3Pen.cameraX + c3Pen.x) = 550 := by
    rw [show c3Pen.cameraX + c3Pen.x = 100 from by norm_num [c3Pen, c1Pen]]
    rw [flatSegs_height testEnv 100 (by norm_num) (by norm_num)]
    norm_num [testEnv]
  have hfoot : RacingPenguin.footY false (1/60) c3Pen ≥
      RacingPenguin.terrainHeightY testEnv flatSegs (c3Pen.cameraX + c3Pen.x) := by
    rw [hground]
    unfold RacingPenguin.footY RacingPenguin.airY1
    rw [hvy]
    norm_num [c3Pen, c1Pen, RacingPenguin.penguinHeight]
  have hp : |RacingPenguin.slopeAngle testEnv
      (RacingPenguin.terrainNormalAt testEnv flatSegs (c3Pen.cameraX + c3Pen.x))| <
        RacingPenguin.physics.perfectThreshold ∧
      |RacingPenguin.airVy3 false (1/60) c3Pen| > 200 := by
    constructor
    · rw [show RacingPenguin.slopeAngle testEnv
          (RacingPenguin.terrainNormalAt testEnv flatSegs (c3Pen.cameraX + c3Pen.x)) = 0
          from rfl, abs_zero]
      norm_num [RacingPenguin.physics]
    · rw [hvy, abs_of_nonpos (by norm_num : (-5890/3 : ℚ) ≤ 0)]
      norm_num
  refine ⟨(penguin_land_perfect testEnv flatSegs false (1/60) c3Pen rfl hfoot hp).1, ?_, ?_⟩
  · rw [hvy]; norm_num
  · norm_num [c3Pen, c1Pen]

/-- Witness for C3 at a concrete airborne state of each characterised variant. -/
theorem c3_witness :
    ((SurfRacer.update testEnv 0 1 surfAir).grounded = true ↔
      SurfRacer.airY 1 surfAir ≥ SurfRacer.groundYAt testEnv surfAir
        (SurfRacer.newWorldX 1 surfAir) ∧ SurfRacer.airVy 1 surfAir > 0) ∧
    ((SurfDocs.update testEnv 0 1 docsAir).grounded = true ↔
      SurfDocs.airY 1 docsAir ≥ SurfDocs.groundYAt testEnv
        (SurfDocs.newWorldX 1 docsAir) ∧ SurfDocs.airVy 1 docsAir > 0) ∧
    ((RacingPenguin.updatePenguin testEnv flatSegs false 1 c4Pen).onGround = true ↔
      RacingPenguin.footY false 1 c4Pen ≥
        RacingPenguin.terrainHeightY testEnv flatSegs (c4Pen.cameraX + c4Pen.x)) :=
  ⟨c3_theorem.1 testEnv 0 1 surfAir rfl rfl,
   c3_theorem.2.1 testEnv 0 1 docsAir rfl rfl,
   c3_theorem.2.2 testEnv flatSegs false 1 c4Pen rfl⟩

/-- C4 (confirmed): in the hill-glide variant, on every landing (airborne tick
whose foot position reaches the terrain), if the absolute slope angle at the
landing point is below `physics.perfectThreshold` (0.45) and the impact speed
`|vy|` exceeds 200, then the combo increments by 1 and the forward speed gains
`min(600, impact * 0.8)`; otherwise the combo resets to 0 and the forward
speed is multiplied by 0.75. -/
theorem c4_theorem :
    ∀ (env : JsEnv) (segs : List RacingPenguin.Segment) (held : Bool) (dt : ℚ)
      (s : RacingPenguin.PState), s.onGround = false →
      RacingPenguin.footY held dt s ≥
        RacingPenguin.terrainHeightY env segs (s.cameraX + s.x) →
      ((|RacingPenguin.slopeAngle env
           (RacingPenguin.terrainNormalAt env segs (s.cameraX + s.x))| <
             RacingPenguin.physics.perfectThreshold ∧
           |RacingPenguin.airVy3 held dt s| > 200 →
         (RacingPenguin.updatePenguin env segs held dt s).combo = s.combo + 1 ∧
         (RacingPenguin.updatePenguin env segs held dt s).vx =
           RacingPenguin.airVx3 held dt s +
             min 600 (|RacingPenguin.airVy3 held dt s| * 0.8)) ∧
       (¬(|RacingPenguin.slopeAngle env
           (RacingPenguin.terrainNormalAt env segs (s.cameraX + s.x))| <
             RacingPenguin.physics.perfectThreshold ∧
           |RacingPenguin.airVy3 held dt s| > 200) →
         (RacingPenguin.updatePenguin env segs held dt s).combo = 0 ∧
         (RacingPenguin.updatePenguin env segs held dt s).vx =
           RacingPenguin.airVx3 held dt s * 0.75)) := by
  intro env segs held dt s h hf
  constructor
  · intro hp
    exact ⟨(penguin_land_perfect env segs held dt s h hf hp).2.2.1,
           (penguin_land_perfect env segs held dt s h hf hp).2.2.2⟩
  · intro hp
    exact ⟨(penguin_land_imperfect env segs held dt s h hf hp).2.2.1,
           (penguin_land_imperfect env segs held dt s h hf hp).2.2.2⟩

/-- Witness for C4: a concrete perfect landing on flat terrain. -/
theorem c4_witness :
    (RacingPenguin.updatePenguin testEnv flatSegs false (1/60) c4Pen).combo =
      c4Pen.combo + 1 ∧
    (RacingPenguin.updatePenguin testEnv flatSegs false (1/60) c4Pen).vx =
      RacingPenguin.airVx3 false (1/60) c4Pen +
        min 600 (|RacingPenguin.airVy3 false (1/60) c4Pen| * 0.8) := by
  have h200 : (200:ℚ) < RacingPenguin.airVy3 false (1/60) c4Pen := by
    norm_num [RacingPenguin.airVy3, RacingPenguin.airVyLift, RacingPenguin.airVy1,
      RacingPenguin.airVx2, RacingPenguin.boostSpend, RacingPenguin.desiredGravity,
      RacingPenguin.jsClamp, RacingPenguin.physics, min_def, max_def, c4Pen, c1Pen]
  have hground : RacingPenguin.terrainHeightY testEnv flatSegs
      (c4Pen.cameraX + c4Pen.x) = 550 := by
    rw [show c4Pen.cameraX + c4Pen.x = 100 from by norm_num [c4Pen, c1Pen]]
    rw [flatSegs_height testEnv 100 (by norm_num) (by norm_num)]
    norm_num [testEnv]
  have hfoot : RacingPenguin.footY false (1/60) c4Pen ≥
      RacingPenguin.terrainHeightY testEnv flatSegs (c4Pen.cameraX + c4Pen.x) := by
    rw [hground]
    unfold RacingPenguin.footY RacingPenguin.airY1
    have h0 : (0:ℚ) ≤ RacingPenguin.airVy3 false (1/60) c4Pen * (1/60) :=
      mul_nonneg (le_of_lt (lt_trans (by norm_num) h200)) (by norm_num)
    have hy : c4Pen.y = 540 := by norm_num [c4Pen, c1Pen]
    rw [hy]
    unfold RacingPenguin.penguinHeight
    linarith
  have hp : |RacingPenguin.slopeAngle testEnv
      (RacingPenguin.terrainNormalAt testEnv flatSegs (c4Pen.cameraX + c4Pen.x))| <
        RacingPenguin.physics.perfectThreshold ∧
      |RacingPenguin.airVy3 false (1/60) c4Pen| > 200 := by
    constructor
    · rw [show RacingPenguin.slopeAngle testEnv
          (RacingPenguin.terrainNormalAt testEnv flatSegs (c4Pen.cameraX + c4Pen.x)) = 0
          from rfl, abs_zero]
      norm_num [RacingPenguin.physics]
    · exact lt_of_lt_of_le h200 (le_abs_self _)
  exact (c4_theorem testEnv flatSegs false (1/60) c4Pen rfl hfoot).1 hp

/-- C5 (confirmed): in both surf variants, `getWaveSlope` is exactly the
symmetric finite difference `(getWaveY(x + 2) - getWaveY(x - 2)) / (2 * 2)`
with the fixed delta 2; and with delta configured to 0 the sampler returns 0
(the numerator vanishes and the falsy-guard divisor `2 * delta || 1` is 1),
not a division by zero. -/
theorem c5_theorem :
    (∀ (env : JsEnv) (fc : ℕ) (t x : ℚ),
        SurfRacer.getWaveSlope env fc t x =
          (SurfRacer.getWaveY env fc t (x + 2) - SurfRacer.getWaveY env fc t (x - 2))
            / (2 * 2)) ∧
    (∀ (env : JsEnv) (fc : ℕ) (t x : ℚ), SurfRacer.getWaveSlopeEps env fc t 0 x = 0) ∧
    (∀ (env : JsEnv) (x : ℚ),
        SurfDocs.getWaveSlope env x =
          (SurfDocs.getWaveY env (x + 2) - SurfDocs.getWaveY env (x - 2)) / (2 * 2)) ∧
    (∀ (env : JsEnv) (x : ℚ), SurfDocs.getWaveSlopeEps env 0 x = 0) := by
  refine ⟨?_, ?_, ?_, ?_⟩
  · intro env fc t x
    unfold SurfRacer.getWaveSlope SurfRacer.getWaveSlopeEps
    norm_num
  · intro env fc t x
    unfold SurfRacer.getWaveSlopeEps
    norm_num
  · intro env x
    unfold SurfDocs.getWaveSlope SurfDocs.getWaveSlopeEps
    norm_num
  · intro env x
    unfold SurfDocs.getWaveSlopeEps
    norm_num

theorem extendLoop_append (env : JsEnv) (fuel : ℕ) (lastEnd limit : ℚ)
    (l : List RacingPenguin.Segment) (j : ℕ) :
    ∃ ext, (RacingPenguin.extendLoop env fuel lastEnd limit (l, j)).1 = l ++ ext := by
  induction fuel generalizing l j with
  | zero => exact ⟨[], by simp [RacingPenguin.extendLoop]⟩
  | succ n ih =>
    unfold RacingPenguin.extendLoop
    split_ifs with h
    · obtain ⟨ext, hext⟩ :=
        ih (l ++ [(RacingPenguin.generateSegment env lastEnd j).1])
          (RacingPenguin.generateSegment env lastEnd j).2
      exact ⟨[(RacingPenguin.generateSegment env lastEnd j).1] ++ ext,
        by rw [hext, List.append_assoc]⟩
    · exact ⟨[], by simp⟩

theorem generateSegment_x (env : JsEnv) (startX : ℚ) (i : ℕ) :
    ((RacingPenguin.generateSegment env startX i).1).x = startX := rfl

theorem generateSegment_length_ge (env : JsEnv) (startX : ℚ) (i : ℕ)
    (hr : 0 ≤ env.rng (i + 1)) :
    304 ≤ ((RacingPenguin.generateSegment env startX i).1).length := by
  unfold RacingPenguin.generateSegment RacingPenguin.terrain
  dsimp only
  nlinarith [hr]

theorem generateSegment_amplitude_ge (env : JsEnv) (startX : ℚ) (i : ℕ)
    (hr : 0 ≤ env.rng i) :
    120 ≤ ((RacingPenguin.generateSegment env startX i).1).amplitude := by
  unfold RacingPenguin.generateSegment RacingPenguin.lerp RacingPenguin.terrain
  dsimp only
  nlinarith [hr]

theorem ensureSegments_start (env : JsEnv) (fuel i : ℕ)
    (hr : ∀ j, 0 ≤ env.rng j) (hw : 0 ≤ env.width) :
    ∃ ext, (RacingPenguin.ensureSegments env 0 fuel [] i).1 =
      RacingPenguin.flatSeg :: (RacingPenguin.generateSegment env 0 i).1 :: ext := by
  unfold RacingPenguin.ensureSegments
  simp only [List.isEmpty_nil, if_true]
  obtain ⟨ext, hext⟩ := extendLoop_append env fuel
    ((([RacingPenguin.flatSeg, (RacingPenguin.generateSegment env 0 i).1]).getLast?.getD
        RacingPenguin.flatSeg).x +
      (([RacingPenguin.flatSeg, (RacingPenguin.generateSegment env 0 i).1]).getLast?.getD
        RacingPenguin.flatSeg).length)
    (0 + env.width * 2)
    [RacingPenguin.flatSeg, (RacingPenguin.generateSegment env 0 i).1]
    (RacingPenguin.generateSegment env 0 i).2
  refine ⟨ext, ?_⟩
  dsimp only
  rw [hext]
  have hlen := generateSegment_length_ge env 0 i (hr (i + 1))
  have hx := generateSegment_x env 0 i
  show RacingPenguin.pruneLoop 0 env.width
    (RacingPenguin.flatSeg :: (RacingPenguin.generateSegment env 0 i).1 :: ext) = _
  unfold RacingPenguin.pruneLoop
  rw [if_neg (by rw [hx]; linarith)]

theorem segFind_start (gen : RacingPenguin.Segment) (ext : List RacingPenguin.Segment)
    (hx : gen.x = 0) (hl : 0 < gen.length) :
    RacingPenguin.segFind (RacingPenguin.flatSeg :: gen :: ext) 0 = gen := by
  unfold RacingPenguin.segFind
  rw [List.find?_cons_of_neg, List.find?_cons_of_pos]
  · rfl
  · simp only [decide_eq_true_eq]
    exact ⟨by rw [hx], by rw [hx]; linarith⟩
  · simp only [decide_eq_true_eq]
    norm_num [RacingPenguin.flatSeg, RacingPenguin.terrain]

/-- C6 (amended): at run start the hill-glide terrain list is seeded with a
flat zero-slope, zero-amplitude segment, but that segment spans
[-760, -380], entirely behind world coordinate 0; the segment that covers
world coordinate 0 is the procedurally generated one, whose amplitude is at
least `terrain.minAmp` = 120 (so nonzero, and its slope is drawn from
[-0.2, 0.4]): the rider does not start over the flat segment. -/
theorem c6_theorem :
    ∀ (env : JsEnv) (fuel i : ℕ), (∀ j, 0 ≤ env.rng j) → 0 ≤ env.width →
      (RacingPenguin.ensureSegments env 0 fuel [] i).1.head? =
          some RacingPenguin.flatSeg ∧
      RacingPenguin.flatSeg.amplitude = 0 ∧ RacingPenguin.flatSeg.slope = 0 ∧
      RacingPenguin.flatSeg.x + RacingPenguin.flatSeg.length = -380 ∧
      (RacingPenguin.segFind (RacingPenguin.ensureSegments env 0 fuel [] i).1 0).x = 0 ∧
      RacingPenguin.terrain.minAmp ≤
        (RacingPenguin.segFind (RacingPenguin.ensureSegments env 0 fuel [] i).1 0).amplitude := by
  intro env fuel i hr hw
  obtain ⟨ext, hE⟩ := ensureSegments_start env fuel i hr hw
  have hfind : RacingPenguin.segFind (RacingPenguin.ensureSegments env 0 fuel [] i).1 0 =
      (RacingPenguin.generateSegment env 0 i).1 := by
    rw [hE]
    exact segFind_start _ _ (generateSegment_x env 0 i)
      (lt_of_lt_of_le (by norm_num) (generateSegment_length_ge env 0 i (hr (i + 1))))
  refine ⟨by rw [hE]; rfl, rfl, rfl,
    by norm_num [RacingPenguin.flatSeg, RacingPenguin.terrain], ?_, ?_⟩
  · rw [hfind]
    exact generateSegment_x env 0 i
  · rw [hfind]
    exact generateSegment_amplitude_ge env 0 i (hr i)

/-- C6 counterexample: with the all-zero random stream, the segment covering
world coordinate 0 at run start has amplitude 120 and slope -0.2 - not zero
slope and zero amplitude as claimed. -/
theorem c6_counterexample :
    (RacingPenguin.segFind (RacingPenguin.ensureSegments testEnv 0 0 [] 0).1 0).amplitude ≠ 0 ∧
    (RacingPenguin.segFind (RacingPenguin.ensureSegments testEnv 0 0 [] 0).1 0).slope ≠ 0 := by
  have hgen : RacingPenguin.generateSegment testEnv 0 0 = (⟨0, 304, 120, -1/5, -1⟩, 4) := by
    unfold RacingPenguin.generateSegment RacingPenguin.lerp RacingPenguin.terrain
    norm_num [testEnv, Prod.ext_iff, RacingPenguin.Segment.mk.injEq]
  obtain ⟨ext, hE⟩ := ensureSegments_start testEnv 0 0 (by intro j; norm_num [testEnv])
    (by norm_num [testEnv])
  have hfind := segFind_start ((RacingPenguin.generateSegment testEnv 0 0).1) ext
    (generateSegment_x testEnv 0 0) (by rw [hgen]; norm_num)
  rw [hE, hfind, hgen]
  norm_num

/-- Witness for C6 at the concrete all-zero random stream. -/
theorem c6_witness :
    (RacingPenguin.ensureSegments testEnv 0 3 [] 0).1.head? =
        some RacingPenguin.flatSeg ∧
    RacingPenguin.flatSeg.amplitude = 0 ∧ RacingPenguin.flatSeg.slope = 0 ∧
    RacingPenguin.flatSeg.x + RacingPenguin.flatSeg.length = -380 ∧
    (RacingPenguin.segFind (RacingPenguin.ensureSegments testEnv 0 3 [] 0).1 0).x = 0 ∧
    RacingPenguin.terrain.minAmp ≤
      (RacingPenguin.segFind (RacingPenguin.ensureSegments testEnv 0 3 [] 0).1 0).amplitude :=
  c6_theorem testEnv 3 0 (by intro j; norm_num [testEnv]) (by norm_num [testEnv])

/-- C7 (amended): the Tidal Drop frame callback clamps the wall-clock delta
to at most 0.03 s and the hill-glide frame callback clamps it to at most
0.05 s, so a single update there never advances the simulation by more than
that bound. The surf variants do not clamp at all: past the first-frame
`if (!lastTime)` guard, src/docs/game.js passes the raw wall-clock delta to
`update`, and src/game.js passes a 120-sample sliding average of it, which
exceeds every fixed 30-50 ms bound after a large gap (see the
counterexample). -/
theorem c7_theorem :
    (∀ ts last, TidalDrop.loopDt ts last ≤ 0.03) ∧
    (∀ ts last, RacingPenguin.frameDt ts last ≤ 0.05) :=
  ⟨fun _ _ => min_le_right _ _, fun _ _ => min_le_right _ _⟩

/-- C7 counterexample: run the surf loops from their initial state
(`lastTime = 0`) for two frames, at timestamps 5000 ms and 15000 ms. The
first frame's delta is 0 by the `if (!lastTime)` guard; on the second frame,
10 wall-clock seconds later, the src/game.js loop feeds `update` a smoothed
dt of 5 s and the src/docs/game.js loop feeds it the raw 10 s delta - both
far above the claimed 30-50 ms clamp. -/
theorem c7_counterexample :
    SurfRacer.loopSmoothDt
        (SurfRacer.engineSmooth SurfRacer.initFilter (SurfRacer.loopRawDt 5000 0)).2
        15000 5000 = 5 ∧
    SurfDocs.loopDt 15000 5000 = 10 ∧ (0.05 : ℚ) < 5 := by
  refine ⟨?_, by norm_num [SurfDocs.loopDt], by norm_num⟩
  have hraw0 : SurfRacer.loopRawDt 5000 0 = 0 := by norm_num [SurfRacer.loopRawDt]
  have h0 : (List.replicate 120 (0:ℚ)).getD 0 0 = 0 := rfl
  have hf1 : (SurfRacer.engineSmooth SurfRacer.initFilter (SurfRacer.loopRawDt 5000 0)).2 =
      ⟨(List.replicate 120 (0:ℚ)).set 0 0, 1, 0, false⟩ := by
    rw [hraw0]
    unfold SurfRacer.engineSmooth SurfRacer.initFilter
    dsimp only
    rw [h0]
    simp only [List.length_set, List.length_replicate]
    norm_num [SurfRacer.Filter.mk.injEq]
  have hraw1 : SurfRacer.loopRawDt 15000 5000 = 10 := by norm_num [SurfRacer.loopRawDt]
  have h1 : ((List.replicate 120 (0:ℚ)).set 0 0).getD 1 0 = 0 := rfl
  unfold SurfRacer.loopSmoothDt
  rw [hf1, hraw1]
  unfold SurfRacer.engineSmooth
  dsimp only
  rw [h1]
  simp only [List.length_set, List.length_replicate]
  norm_num

/-- C8 (confirmed): for every stored string, if the stored leaderboard string
parses with an error (`parse` returns none, modelling a thrown SyntaxError)
or parses to a non-array, loading returns the empty list; and if the stored
best-score string is non-numeric (`parseInt` returns NaN, modelled as none),
loading returns 0 - in both the Tidal Drop and the hill-glide variant. The
loaders are total functions: the catch clause absorbs the parse failure and
no exception reaches the caller. -/
theorem c8_theorem :
    (∀ (parse : String → Option JsValue) (raw : String), parse raw = none →
        TidalDrop.loadScores parse (some raw) = []) ∧
    (∀ (parse : String → Option JsValue) (raw : String) (v : JsValue),
        parse raw = some v → jsIsArray v = false →
        TidalDrop.loadScores parse (some raw) = []) ∧
    (∀ (pint : String → Option ℤ) (raw : String), pint raw = none →
        TidalDrop.loadBestScore pint (some raw) = 0) ∧
    (∀ (parse : String → Option JsValue) (raw : String), raw ≠ "" → parse raw = none →
        RacingPenguin.loadScores parse (some raw) = []) ∧
    (∀ (parse : String → Option JsValue) (raw : String) (v : JsValue),
        raw ≠ "" → parse raw = some v → jsIsArray v = false →
        RacingPenguin.loadScores parse (some raw) = []) ∧
    (∀ (pint : String → Option ℤ) (raw : String), raw ≠ "" → pint raw = none →
        RacingPenguin.loadBest pint (some raw) = 0) := by
  refine ⟨?_, ?_, ?_, ?_, ?_, ?_⟩
  · intro parse raw hp
    unfold TidalDrop.loadScores
    by_cases hr : raw = ""
    · simp [hr]
    · simp [hr, hp]
  · intro parse raw v hp ha
    unfold TidalDrop.loadScores
    by_cases hr : raw = ""
    · simp [hr]
    · simp [hr, hp, ha]
  · intro pint raw hp
    unfold TidalDrop.loadBestScore
    by_cases hr : raw = ""
    · simp [hr]
    · simp [hr, hp]
  · intro parse raw hr hp
    unfold RacingPenguin.loadScores
    simp [hr, hp]
  · intro parse raw v hr hp ha
    unfold RacingPenguin.loadScores
    simp [hr, hp, ha]
  · intro pint raw hr hp
    unfold RacingPenguin.loadBest
    simp [hr, hp]

/-- Witness for C8 at concrete malformed stored strings. -/
theorem c8_witness :
    TidalDrop.loadScores (fun _ => none) (some "not json") = [] ∧
    TidalDrop.loadScores (fun _ => some (JsValue.jnum 7)) (some "7") = [] ∧
    TidalDrop.loadBestScore (fun _ => none) (some "abc") = 0 ∧
    RacingPenguin.loadScores (fun _ => none) (some "not json") = [] ∧
    RacingPenguin.loadBest (fun _ => none) (some "abc") = 0 :=
  ⟨c8_theorem.1 (fun _ => none) "not json" rfl,
   c8_theorem.2.1 (fun _ => some (JsValue.jnum 7)) "7" (JsValue.jnum 7) rfl rfl,
   c8_theorem.2.2.1 (fun _ => none) "abc" rfl,
   c8_theorem.2.2.2.1 (fun _ => none) "not json" (by decide) rfl,
   c8_theorem.2.2.2.2.2 (fun _ => none) "abc" (by decide) rfl⟩

theorem tidal_update_surferX (env : JsEnv) (dt : ℚ) (s : TidalDrop.GState)
    (h : s.gameState = TidalDrop.Mode.playing) :
    (TidalDrop.update env dt s).surferX =
      (let d0 : ℤ := (if s.keysLeft then -1 else 0) + (if s.keysRight then 1 else 0)
       let dir : ℤ := if ¬s.keysLeft ∧ ¬s.keysRight then s.pointerDirection else d0
       let x1 := s.surferX + (dir : ℚ) * TidalDrop.surferSpeed * dt
       let x2 := if x1 < 30 then 30 else x1
       if x2 > s.width - 30 then s.width - 30 else x2) := by
  unfold TidalDrop.update
  rw [if_neg (by simp [h])]
  dsimp only
  rw [apply_ite TidalDrop.GState.surferX]
  dsimp only
  rw [ite_self]

/-- C9 (confirmed): in the Tidal Drop variant, after every Playing tick of
`update` the surfer satisfies `30 ≤ surfer.x ≤ width - 30` for every input
(keys and pointer), provided the window is at least 60 px wide so the two
margins do not cross: steering can never leave the band, because the clamp is
the last write to `surfer.x` in the tick. -/
theorem c9_theorem :
    ∀ (env : JsEnv) (dt : ℚ) (s : TidalDrop.GState),
      s.gameState = TidalDrop.Mode.playing → 60 ≤ s.width →
      30 ≤ (TidalDrop.update env dt s).surferX ∧
        (TidalDrop.update env dt s).surferX ≤ s.width - 30 := by
  intro env dt s h hw
  rw [tidal_update_surferX env dt s h]
  dsimp only
  split_ifs <;> constructor <;> linarith

/-- Witness for C9 at a concrete Playing state on an 800 px window. -/
theorem c9_witness :
    30 ≤ (TidalDrop.update testEnv 1 tidalPlay).surferX ∧
      (TidalDrop.update testEnv 1 tidalPlay).surferX ≤ tidalPlay.width - 30 :=
  c9_theorem testEnv 1 tidalPlay rfl (by norm_num [tidalPlay])

/-- C10 (confirmed): in both surf variants, `primaryAction` while Playing and
Airborne returns the state unchanged in every field (no double jump), and
while Playing and Grounded it returns the state with only `grounded := false`
and `vy := physics.jumpVelocity` (-520) changed. -/
theorem c10_theorem :
    (∀ (env : JsEnv) (s : SurfRacer.GState), s.mode = SurfRacer.Mode.playing →
        (s.grounded = false → SurfRacer.primaryAction env s = s) ∧
        (s.grounded = true → SurfRacer.primaryAction env s =
          { s with grounded := false, vy := SurfRacer.physics.jumpVelocity })) ∧
    (∀ (env : JsEnv) (s : SurfDocs.GState), s.mode = SurfRacer.Mode.playing →
        (s.grounded = false → SurfDocs.primaryAction env s = s) ∧
        (s.grounded = true → SurfDocs.primaryAction env s =
          { s with grounded := false, vy := SurfDocs.physics.jumpVelocity })) := by
  constructor
  · intro env s h
    unfold SurfRacer.primaryAction
    rw [if_neg (by simp [h]), if_neg (by simp [h]), if_pos h]
    constructor
    · intro hg
      rw [hg]
      simp
    · intro hg
      rw [hg]
      simp
  · intro env s h
    unfold SurfDocs.primaryAction
    rw [if_neg (by simp [h]), if_neg (by simp [h]), if_pos h]
    constructor
    · intro hg
      rw [hg]
      simp
    · intro hg
      rw [hg]
      simp

/-- Witness for C10 at concrete Playing states, airborne and grounded. -/
theorem c10_witness :
    SurfRacer.primaryAction testEnv surfAir = surfAir ∧
    SurfRacer.primaryAction testEnv surfGround =
      { surfGround with grounded := false, vy := SurfRacer.physics.jumpVelocity } ∧
    SurfDocs.primaryAction testEnv docsAir = docsAir :=
  ⟨(c10_theorem.1 testEnv surfAir rfl).1 rfl,
   (c10_theorem.1 testEnv surfGround rfl).2 rfl,
   (c10_theorem.2 testEnv docsAir rfl).1 rfl⟩
